import Mathlib

/-!
Verification of the single-endpoint web application in `src/app.py`.

The source registers one route, `"/"`, whose handler `home` returns a fixed
string, and starts the development server on host `0.0.0.0`, port `5000`,
under an entry-point guard.  Request dispatch, the not-found and
method-not-allowed defaults, and the automatic `HEAD`/`OPTIONS` support are
behavior of the web framework (Flask), not present in `src/`; those parts
are modelled from the spec, which describes them as the runtime defaults.
-/

/-- HTTP request methods that the dispatch model distinguishes. -/
inductive Method where
  | GET
  | HEAD
  | OPTIONS
  | POST
  | PUT
  | DELETE
  | PATCH
  deriving DecidableEq, Repr

/-- An HTTP request.  The application only ever inspects `method` and `path`;
`query`, `headers` and `body` are carried so that independence from them can
be stated. -/
structure Request where
  method : Method
  path : String
  query : String
  headers : List (String × String)
  body : String
  deriving DecidableEq, Repr

/-- An HTTP response: status code, content type and body. -/
structure Response where
  status : Nat
  contentType : String
  body : String
  deriving DecidableEq, Repr

/-- The string literal returned by `home` in `src/app.py`, line 7. -/
def homeBody : String := "This is Kefas Lungu's HNG 13 stage 1 task."

/-- Modelled from the spec: the framework's default content type for a
handler returning a plain string (the spec allows `text/plain` or the
framework default; Flask's default is `text/html; charset=utf-8`). -/
def defaultContentType : String := "text/html; charset=utf-8"

/-- The handlers registered by the module.  `src/app.py` registers exactly
one, `home`. -/
inductive Handler where
  | home
  deriving DecidableEq, Repr

/-- Running a handler yields its response body.  `home` (lines 6-7 of
`src/app.py`) returns the fixed string `homeBody`. -/
def runHandler : Handler → String
  | Handler.home => homeBody

/-- The application's state: its route table, mapping a path to the set of
allowed methods and the registered handler.  This is the only state the
application holds; it is built at import time and never mutated. -/
structure AppState where
  routes : List (String × List Method × Handler)
  deriving DecidableEq, Repr

/-- Modelled from the spec: the route table after evaluating lines 3-7 of
`src/app.py`.  `@app.route("/")` with no `methods` argument registers the
framework default method set: `GET` plus the automatically provided `HEAD`
and `OPTIONS`. -/
def initialApp : AppState :=
  { routes := [("/", ([Method.GET, Method.HEAD, Method.OPTIONS], Handler.home))] }

/-- Modelled from the spec: the framework's default not-found response
(status 404). -/
def notFoundResponse : Response :=
  { status := 404, contentType := defaultContentType, body := "Not Found" }

/-- Modelled from the spec: the framework's default method-not-allowed
response (status 405). -/
def methodNotAllowedResponse : Response :=
  { status := 405, contentType := defaultContentType, body := "Method Not Allowed" }

/-- Modelled from the spec: framework request dispatch.  The path is looked
up in the route table; an unknown path gets the default not-found response,
a known path with a method outside the allowed set gets the default
method-not-allowed response.  `HEAD` answers like `GET` but with an empty
body, and the automatic `OPTIONS` response has an empty body; `GET` runs the
registered handler. -/
def dispatch (st : AppState) (req : Request) : Response :=
  match st.routes.find? (fun e => e.1 = req.path) with
  | none => notFoundResponse
  | some (_, methods, h) =>
    if req.method ∈ methods then
      if req.method = Method.HEAD ∨ req.method = Method.OPTIONS then
        { status := 200, contentType := defaultContentType, body := "" }
      else
        { status := 200, contentType := defaultContentType, body := runHandler h }
    else
      methodNotAllowedResponse

/-- Serving one request: the response is produced from the route table and
the table is returned unchanged — the handler mutates nothing
(`src/app.py`, lines 6-7, a pure return of a constant). -/
def handle (st : AppState) (req : Request) : Response × AppState :=
  (dispatch st req, st)

/-- Serving the same request `n` times in sequence, threading the
application state through every call. -/
def handleN : AppState → Request → Nat → List Response × AppState
  | st, _, 0 => ([], st)
  | st, req, n + 1 =>
    let p := handle st req
    let q := handleN p.2 req n
    (p.1 :: q.1, q.2)

/-- The host and port arguments of `app.run`. -/
structure RunConfig where
  host : String
  port : Nat
  deriving DecidableEq, Repr

/-- The arguments passed to `app.run` in `src/app.py`, line 10; they are
literals in the source, not read from the environment or CLI. -/
def mainRunConfig : RunConfig := { host := "0.0.0.0", port := 5000 }

/-- The server lifecycle states described by the spec's state machine. -/
inductive ServerState where
  | stopped
  | listening
  deriving DecidableEq, Repr

/-- Events acting on the server lifecycle: starting the server, receiving a
termination signal, and serving an incoming request. -/
inductive Event where
  | start
  | terminate
  | request (r : Request)
  deriving DecidableEq, Repr

/-- Modelled from the spec: the server lifecycle.  `app.run` (`src/app.py`,
line 10) moves the process from `stopped` to `listening` and then blocks:
serving requests leaves the state `listening`, and only a termination
signal returns it to `stopped`. -/
def serverStep : ServerState → Event → ServerState
  | ServerState.stopped, Event.start => ServerState.listening
  | ServerState.stopped, _ => ServerState.stopped
  | ServerState.listening, Event.terminate => ServerState.stopped
  | ServerState.listening, _ => ServerState.listening

/-- The result of evaluating the module `src/app.py` top to bottom: the
application (with its route table) and whether the development server was
started, with the run arguments when it was. -/
structure ModuleResult where
  app : AppState
  serverStarted : Bool
  runArgs : Option RunConfig
  deriving DecidableEq, Repr

/-- Evaluating `src/app.py` with `__name__` equal to `"__main__"` or not:
lines 3-7 build the application and register the route unconditionally;
`app.run` on line 10 executes only under the `if __name__ == "__main__"`
guard on line 9. -/
def evalModule (nameIsMain : Bool) : ModuleResult :=
  { app := initialApp
  , serverStarted := nameIsMain
  , runArgs := if nameIsMain then some mainRunConfig else none }

/-- A concrete `GET /` request used as a witness input. -/
def getRootReq : Request :=
  { method := Method.GET, path := "/", query := "", headers := [], body := "" }

/-- A concrete `OPTIONS /` request, the counterexample input for C3. -/
def optionsRootReq : Request :=
  { method := Method.OPTIONS, path := "/", query := "", headers := [], body := "" }

/-- A concrete `HEAD /` request used as a witness input. -/
def headRootReq : Request :=
  { method := Method.HEAD, path := "/", query := "", headers := [], body := "" }

/-- A concrete `POST /` request used as a witness input. -/
def postRootReq : Request :=
  { method := Method.POST, path := "/", query := "", headers := [], body := "" }

/-- A concrete `GET /missing` request used as a witness input. -/
def getMissingReq : Request :=
  { method := Method.GET, path := "/missing", query := "", headers := [], body := "" }

/-- A second concrete `GET /` request, differing from `getRootReq` only in
query string, headers and body. -/
def getRootReqB : Request :=
  { method := Method.GET, path := "/", query := "x=1"
  , headers := [("X-Test", "1")], body := "payload" }

/-- C1: every request with method `GET` and path `/` receives status exactly
200 and body exactly the string returned by `home`, byte for byte. -/
theorem get_root_ok (req : Request) (hm : req.method = Method.GET)
    (hp : req.path = "/") :
    (dispatch initialApp req).status = 200 ∧
    (dispatch initialApp req).body = "This is Kefas Lungu's HNG 13 stage 1 task." := by
  obtain ⟨m, p, q, hs, b⟩ := req
  subst hm
  subst hp
  exact ⟨rfl, rfl⟩

/-- Witness for C1 at the concrete request `getRootReq`. -/
theorem get_root_ok_witness :
    getRootReq.method = Method.GET ∧ getRootReq.path = "/" ∧
    (dispatch initialApp getRootReq).status = 200 ∧
    (dispatch initialApp getRootReq).body = "This is Kefas Lungu's HNG 13 stage 1 task." :=
  ⟨rfl, rfl, get_root_ok getRootReq rfl rfl⟩

/-- C2: every request whose path is not `/` gets the framework default
not-found response, whose status is 404, in particular not 200. -/
theorem other_path_not_found (req : Request) (hp : req.path ≠ "/") :
    dispatch initialApp req = notFoundResponse ∧
    (dispatch initialApp req).status = 404 ∧
    (dispatch initialApp req).status ≠ 200 := by
  have h : dispatch initialApp req = notFoundResponse := by
    unfold dispatch initialApp
    rw [List.find?_cons_of_neg, List.find?_nil]
    simp [Ne.symm hp]
  refine ⟨h, ?_, ?_⟩ <;> rw [h] <;> decide

/-- Witness for C2 at the concrete request `getMissingReq`. -/
theorem other_path_not_found_witness :
    getMissingReq.path ≠ "/" ∧ (dispatch initialApp getMissingReq).status ≠ 200 :=
  ⟨by decide, (other_path_not_found getMissingReq (by decide)).2.2⟩

/-- Counterexample to C3 as stated: `OPTIONS /` has a method that is neither
`GET` nor `HEAD`, yet its status is 200, not the method-not-allowed 405,
because the framework registers an automatic `OPTIONS` handler alongside
`GET` and `HEAD`. -/
theorem options_root_counterexample :
    optionsRootReq.path = "/" ∧
    optionsRootReq.method ≠ Method.GET ∧
    optionsRootReq.method ≠ Method.HEAD ∧
    (dispatch initialApp optionsRootReq).status = 200 ∧
    (dispatch initialApp optionsRootReq).status ≠ 405 := by
  decide

/-- C3 amended: every request to `/` whose method is none of `GET`, `HEAD`
and `OPTIONS` receives the framework default method-not-allowed response,
status 405. -/
theorem unsupported_method_root_405 (req : Request) (hp : req.path = "/")
    (h1 : req.method ≠ Method.GET) (h2 : req.method ≠ Method.HEAD)
    (h3 : req.method ≠ Method.OPTIONS) :
    dispatch initialApp req = methodNotAllowedResponse ∧
    (dispatch initialApp req).status = 405 := by
  obtain ⟨m, p, q, hs, b⟩ := req
  subst hp
  cases m with
  | GET => exact absurd rfl h1
  | HEAD => exact absurd rfl h2
  | OPTIONS => exact absurd rfl h3
  | POST => exact ⟨rfl, rfl⟩
  | PUT => exact ⟨rfl, rfl⟩
  | DELETE => exact ⟨rfl, rfl⟩
  | PATCH => exact ⟨rfl, rfl⟩

/-- Witness for the amended C3 at the concrete request `postRootReq`. -/
theorem unsupported_method_root_405_witness :
    postRootReq.path = "/" ∧ postRootReq.method ≠ Method.GET ∧
    (dispatch initialApp postRootReq).status = 405 :=
  ⟨rfl, by decide,
    (unsupported_method_root_405 postRootReq rfl (by decide) (by decide) (by decide)).2⟩

/-- C4: serving the same request `n` times yields the identical response
every time and leaves the application state exactly as it was. -/
theorem repeated_requests_identical (st : AppState) (req : Request) (n : Nat) :
    handleN st req n = (List.replicate n (dispatch st req), st) := by
  induction n with
  | zero => rfl
  | succ k ih => simp [handleN, handle, List.replicate, ih]

/-- Witness for C4: three repetitions of `GET /` on the initial application
give three identical responses and the unchanged state. -/
theorem repeated_requests_identical_witness :
    handleN initialApp getRootReq 3 =
      ([dispatch initialApp getRootReq, dispatch initialApp getRootReq,
        dispatch initialApp getRootReq], initialApp) :=
  repeated_requests_identical initialApp getRootReq 3

/-- C5: two requests agreeing on method and path get the same response, no
matter how their query strings, headers or bodies differ — dispatch never
inspects those parts. -/
theorem response_depends_only_on_method_path (r1 r2 : Request)
    (hm : r1.method = r2.method) (hp : r1.path = r2.path) :
    dispatch initialApp r1 = dispatch initialApp r2 := by
  obtain ⟨m1, p1, q1, hs1, b1⟩ := r1
  obtain ⟨m2, p2, q2, hs2, b2⟩ := r2
  cases hm
  cases hp
  rfl

/-- Witness for C5: two concrete `GET /` requests differing in query,
headers and body receive the same response. -/
theorem response_depends_only_witness :
    getRootReq.method = getRootReqB.method ∧ getRootReq.path = getRootReqB.path ∧
    getRootReq ≠ getRootReqB ∧
    dispatch initialApp getRootReq = dispatch initialApp getRootReqB :=
  ⟨rfl, rfl, by decide,
    response_depends_only_on_method_path getRootReq getRootReqB rfl rfl⟩

/-- C6: the response to `GET /` carries either `text/plain` or the framework
default content type (here the latter). -/
theorem get_root_content_type (req : Request) (hm : req.method = Method.GET)
    (hp : req.path = "/") :
    (dispatch initialApp req).contentType = "text/plain" ∨
    (dispatch initialApp req).contentType = defaultContentType := by
  obtain ⟨m, p, q, hs, b⟩ := req
  subst hm
  subst hp
  exact Or.inr rfl

/-- Witness for C6 at the concrete request `getRootReq`. -/
theorem get_root_content_type_witness :
    getRootReq.method = Method.GET ∧
    ((dispatch initialApp getRootReq).contentType = "text/plain" ∨
      (dispatch initialApp getRootReq).contentType = defaultContentType) :=
  ⟨rfl, get_root_content_type getRootReq rfl rfl⟩

/-- C7: the server is started on host `0.0.0.0`, port 5000, both literals in
the source, and once listening it stays listening on every event other than
a termination signal. -/
theorem run_binds_host_port_and_blocks :
    mainRunConfig.host = "0.0.0.0" ∧ mainRunConfig.port = 5000 ∧
    (evalModule true).runArgs = some mainRunConfig ∧
    (∀ e : Event, serverStep ServerState.listening e =
      if e = Event.terminate then ServerState.stopped else ServerState.listening) := by
  refine ⟨rfl, rfl, rfl, ?_⟩
  intro e
  cases e <;> rfl

/-- Witness for C7: serving a request does not leave the listening state. -/
theorem run_binds_host_port_and_blocks_witness :
    serverStep ServerState.listening (Event.request getRootReq) = ServerState.listening := by
  have h := run_binds_host_port_and_blocks.2.2.2 (Event.request getRootReq)
  simpa using h

/-- C8: the lifecycle has exactly the two states `stopped` and `listening`;
from `stopped` only `start` changes the state (to `listening`), and from
`listening` only `terminate` changes the state (to `stopped`). -/
theorem lifecycle_two_state_machine :
    (∀ s : ServerState, s = ServerState.stopped ∨ s = ServerState.listening) ∧
    (∀ e : Event, serverStep ServerState.stopped e =
      if e = Event.start then ServerState.listening else ServerState.stopped) ∧
    (∀ e : Event, serverStep ServerState.listening e =
      if e = Event.terminate then ServerState.stopped else ServerState.listening) := by
  refine ⟨?_, ?_, ?_⟩
  · intro s
    cases s
    · exact Or.inl rfl
    · exact Or.inr rfl
  · intro e
    cases e <;> rfl
  · intro e
    cases e <;> rfl

/-- Witness for C8: the two named transitions, evaluated concretely. -/
theorem lifecycle_two_state_machine_witness :
    serverStep ServerState.stopped Event.start = ServerState.listening ∧
    serverStep ServerState.listening Event.terminate = ServerState.stopped := by
  have h1 := lifecycle_two_state_machine.2.1 Event.start
  have h2 := lifecycle_two_state_machine.2.2 Event.terminate
  exact ⟨by simpa using h1, by simpa using h2⟩

/-- C9: evaluating the module without the `__main__` name registers the
application and its one route but does not start the server; evaluating it
as the entry point additionally starts the server with the fixed run
arguments. -/
theorem main_guard_controls_server_start :
    (evalModule false).serverStarted = false ∧
    (evalModule false).runArgs = none ∧
    (evalModule false).app = initialApp ∧
    (evalModule true).serverStarted = true ∧
    (evalModule true).runArgs = some mainRunConfig ∧
    (evalModule true).app = initialApp :=
  ⟨rfl, rfl, rfl, rfl, rfl, rfl⟩

/-- C10: `HEAD /` and `OPTIONS /` both succeed with status 200 and an empty
body, and `HEAD` carries the same content type as the corresponding `GET`. -/
theorem head_options_root_ok (req : Request) (hp : req.path = "/")
    (hm : req.method = Method.HEAD ∨ req.method = Method.OPTIONS) :
    (dispatch initialApp req).status = 200 ∧
    (dispatch initialApp req).body = "" ∧
    (dispatch initialApp req).contentType =
      (dispatch initialApp { req with method := Method.GET }).contentType := by
  obtain ⟨m, p, q, hs, b⟩ := req
  subst hp
  rcases hm with hm | hm
  · subst hm
    exact ⟨rfl, rfl, rfl⟩
  · subst hm
    exact ⟨rfl, rfl, rfl⟩

/-- Witness for C10 at the concrete request `headRootReq`. -/
theorem head_options_root_ok_witness :
    headRootReq.path = "/" ∧
    (dispatch initialApp headRootReq).status = 200 ∧
    (dispatch initialApp headRootReq).body = "" :=
  ⟨rfl, (head_options_root_ok headRootReq rfl (Or.inl rfl)).1,
    (head_options_root_ok headRootReq rfl (Or.inl rfl)).2.1⟩
